import Mathlib

/-!
Verification of `jira_time_logger.py` (kvas-it/jira-time-logger).

The repository's only non-trivial logic is the `vimlog` subcommand:
it matches one input line against the regular expression `WORKLOG_RX`,
converts the captured `tracking` marks into minutes, and either submits a
worklog entry or echoes the line with an annotation.  We embed that logic
shallowly:

* strings are `List Char` (Python `str` slicing is per code point, matching
  `List.drop`/`List.take`);
* the regular expression is embedded by a backtracking matcher that returns
  the list of all parses in Python's backtracking priority order (greedy
  quantifiers longest-first, later choice points varying fastest); the
  first element of that list is exactly the match `re.match` produces.
  Character classes are the ASCII readings of `\s`, `\w`, `\d`; all inputs
  considered here are ASCII, where this coincides with Python;
* `vimlog` is a pure function from the input line to the printed output
  line together with the list of `add_worklog` calls it issues;
* `make_jira_client`/`main` are embedded as a function from configuration
  and a password store to either a fatal exit (message, exit code) or the
  list of tracker calls the subcommand performs.
-/

/-- ASCII reading of Python's `\s` class: space, tab, newline, carriage
return, vertical tab, form feed. -/
def isSpaceCh (c : Char) : Bool :=
  c = ' ' || c = '\t' || c = '\n' || c = '\r' || c = '\x0b' || c = '\x0c'

/-- ASCII reading of Python's `\w` class: letters, digits, underscore. -/
def isWordCh (c : Char) : Bool :=
  c.isAlphanum || c = '_'

/-- Python's `\W`: complement of `\w`. -/
def isNonWordCh (c : Char) : Bool :=
  !isWordCh c

/-- Python's `\d` (ASCII): decimal digits. -/
def isDigitCh (c : Char) : Bool :=
  c.isDigit

/-- The class `[\. x]` of the `state` group of `WORKLOG_RX`. -/
def isStateCh (c : Char) : Bool :=
  c = '.' || c = ' ' || c = 'x'

/-- The class `[\w\s\.,;\-\/]` of the `comment` group of `WORKLOG_RX`. -/
def isCommentCh (c : Char) : Bool :=
  isWordCh c || isSpaceCh c || c = '.' || c = ',' || c = ';' || c = '-' || c = '/'

/-- The class `[\.\;\,\s]` of the `tracking` group of `WORKLOG_RX`. -/
def isTrackCh (c : Char) : Bool :=
  c = '.' || c = ';' || c = ',' || isSpaceCh c

/-- The class `[A-Z]` of the `issue` group of `WORKLOG_RX`. -/
def isUpperCh (c : Char) : Bool :=
  'A' ≤ c && c ≤ 'Z'

/-- All ways a regex fragment can consume a prefix of the input, listed in
Python's backtracking priority order (first element = what the engine
commits to first).  Each entry is (captured value, remaining input). -/
abbrev Parses (α : Type) := List (α × List Char)

/-- Match one character of class `p`. -/
def pChar (p : Char → Bool) : List Char → Parses Char
  | [] => []
  | c :: rest => if p c then [(c, rest)] else []

/-- Match one literal character. -/
def pLit (c : Char) (s : List Char) : Parses Unit :=
  (pChar (fun d => d = c) s).map (fun x => ((), x.2))

/-- Maximal run of class-`p` characters at the head of the input, plus the
remainder after that run. -/
def maxRun (p : Char → Bool) : List Char → List Char × List Char
  | [] => ([], [])
  | c :: rest =>
    if p c then
      let r := maxRun p rest
      (c :: r.1, r.2)
    else ([], c :: rest)

/-- Greedy `class*`: all splits, longest captured run first (Python tries
the longest repetition first and backtracks towards the empty one). -/
def pStar (p : Char → Bool) (s : List Char) : Parses (List Char) :=
  let m := maxRun p s
  (List.range (m.1.length + 1)).reverse.map
    (fun k => (m.1.take k, m.1.drop k ++ m.2))

/-- Greedy `class+`: like `pStar` but the empty repetition is not allowed
(it is the last element of `pStar`, hence `dropLast`). -/
def pPlus (p : Char → Bool) (s : List Char) : Parses (List Char) :=
  (pStar p s).dropLast

/-- The optional group `(?P<time>\@\d+)?`: greedy, so all ways of matching
`@` followed by digits come first (longest digit run first), then the
empty alternative. -/
def pTime (s : List Char) : Parses (Option (List Char)) :=
  (match s with
   | '@' :: rest =>
     (pPlus isDigitCh rest).map (fun x => (some ('@' :: x.1), x.2))
   | _ => []) ++ [(none, s)]

/-- The group `(?P<issue>[A-Z]+\-\d+)`. -/
def pIssue (s : List Char) : Parses (List Char) :=
  (pPlus isUpperCh s).flatMap fun x =>
    match x.2 with
    | '-' :: r2 =>
      (pPlus isDigitCh r2).map (fun y => (x.1 ++ '-' :: y.1, y.2))
    | _ => []

/-- The named capture groups of `WORKLOG_RX` (the `prefix` group is called
`pfx` because `prefix` is reserved in Lean). -/
structure WLMatch where
  state : Char
  pfx : List Char
  comment : List Char
  time : Option (List Char)
  issue : List Char
  tracking : List Char
deriving DecidableEq, Repr

/-- All parses of `WORKLOG_RX` anchored at the start of `s`, in Python's
backtracking priority order.  Transcribes the pattern

  `\-\s+\[(?P<state>[\. x])\]\s*`
  `(?P<prefix>\W*)\s+`
  `(?P<comment>[\w\s\.,;\-\/]+)\s+`
  `(?P<time>\@\d+)?\s*`
  `\- (?P<issue>[A-Z]+\-\d+)\s+`
  `\[\d*(?P<tracking>[\.\;\,\s]*)\]`

item by item; the nesting of `List.flatMap` makes later choice points vary
fastest, exactly as the backtracking engine does. -/
def WORKLOG_RX_parses (s : List Char) : Parses WLMatch :=
  (pLit '-' s).flatMap fun a =>
  (pPlus isSpaceCh a.2).flatMap fun b =>
  (pLit '[' b.2).flatMap fun c =>
  (pChar isStateCh c.2).flatMap fun st =>
  (pLit ']' st.2).flatMap fun d =>
  (pStar isSpaceCh d.2).flatMap fun e =>
  (pStar isNonWordCh e.2).flatMap fun px =>
  (pPlus isSpaceCh px.2).flatMap fun f =>
  (pPlus isCommentCh f.2).flatMap fun cm =>
  (pPlus isSpaceCh cm.2).flatMap fun g =>
  (pTime g.2).flatMap fun tm =>
  (pStar isSpaceCh tm.2).flatMap fun h =>
  (pLit '-' h.2).flatMap fun i =>
  (pLit ' ' i.2).flatMap fun j =>
  (pIssue j.2).flatMap fun iss =>
  (pPlus isSpaceCh iss.2).flatMap fun k =>
  (pLit '[' k.2).flatMap fun l =>
  (pStar isDigitCh l.2).flatMap fun m =>
  (pStar isTrackCh m.2).flatMap fun tr =>
  (pLit ']' tr.2).map fun z =>
    (⟨st.1, px.1, cm.1, tm.1, iss.1, tr.1⟩, z.2)

/-- `WORKLOG_RX.match(line)`: the first parse in backtracking order, or
`none` when the pattern does not match at the start of the line. -/
def WORKLOG_RX_match (line : List Char) : Option WLMatch :=
  ((WORKLOG_RX_parses line).head?).map Prod.fst

/-- One step of the minute-accumulation loop of `vimlog`
(`jira_time_logger.py` lines 123-129): three independent `if` statements
adding 30 for `.`, 15 for `;` and 5 for `,`. -/
def stepMinutes (minutes : Nat) (c : Char) : Nat :=
  let m1 := if c = '.' then minutes + 30 else minutes
  let m2 := if c = ';' then m1 + 15 else m1
  if c = ',' then m2 + 5 else m2

/-- The whole loop: `minutes = 0; for c in tracking: ...`. -/
def accumulate (tracking : List Char) : Nat :=
  tracking.foldl stepMinutes 0

/-- One `args.jira.add_worklog(issue=..., timeSpent=..., comment=...)`
call. -/
structure WorklogCall where
  issue : List Char
  timeSpent : List Char
  comment : List Char
deriving DecidableEq, Repr

/-- What one run of the `vimlog` subcommand does after reading its input
line: the single line it prints and the tracker calls it issues. -/
structure VimlogRun where
  output : List Char
  calls : List WorklogCall
deriving DecidableEq, Repr

/-- The `vimlog` command body (`jira_time_logger.py` lines 112-138) as a
pure function of the input line.  It always returns normally: no branch
raises or changes the exit code. -/
def vimlog (line : List Char) : VimlogRun :=
  match WORKLOG_RX_match line with
  | none => ⟨line ++ "?".toList, []⟩
  | some m =>
    if m.state = 'x' then ⟨line ++ "!".toList, []⟩
    else
      let minutes := accumulate m.tracking
      if minutes > 0 then
        ⟨"- [x]".toList ++ line.drop 5,
         [⟨m.issue, (toString minutes).toList ++ "m".toList, m.comment⟩]⟩
      else ⟨line, []⟩

/-- The configuration every subcommand carries: `--jira-server`/`--jira-user`
with `JIRA_SERVER`/`JIRA_USER` as environment defaults; `none` when neither
an override nor the environment variable supplies a value. -/
structure CLIConfig where
  jira_server : Option String
  jira_user : Option String

/-- Outcome of running the process: either `sys.exit(message)` (which
prints the message and exits with status 1) happened, or the computation
ran to completion with a value. -/
inductive ProcOutcome (α : Type) where
  | exited (message : String) (code : Nat)
  | completed (value : α)

/-- The configured `jira.JIRA` client (held abstract: building it is the
first point at which the tracker can be contacted). -/
structure JiraClient where
  server : String
  user : String
  password : String

/-- `make_jira_client` (`jira_time_logger.py` lines 148-158), with the
keyring lookup passed in as a function.  `sys.exit(msg)` exits with
status 1 after printing `msg`. -/
def make_jira_client (cfg : CLIConfig)
    (keyring_get_password : String → String → Option String) :
    ProcOutcome JiraClient :=
  match cfg.jira_server with
  | none => .exited "Please set JIRA_SERVER or provide --jira-server argument" 1
  | some server =>
    match cfg.jira_user with
    | none => .exited "Please set JIRA_USER or provide --jira-user argument" 1
    | some user =>
      match keyring_get_password server user with
      | none =>
        .exited ("Please add password to keyring (run \"keyring set "
                 ++ server ++ " " ++ user ++ "\")") 1
      | some password => .completed ⟨server, user, password⟩

/-- The subcommand path of `main` (`jira_time_logger.py` lines 161-166):
once a subcommand is selected, `main` first builds the Jira client and only
then runs the subcommand body `cmd` with it.  If `make_jira_client` exits,
the outcome is `exited` and `cmd` is never applied, so no tracker call is
attempted. -/
def run_subcommand {α : Type} (cfg : CLIConfig)
    (keyring_get_password : String → String → Option String)
    (cmd : JiraClient → α) : ProcOutcome α :=
  match make_jira_client cfg keyring_get_password with
  | .exited msg code => .exited msg code
  | .completed client => .completed (cmd client)

/-- Modelled from the spec: decides the output shape claimed in §4.3 for a
successful submission, namely that `output` is `input` with exactly one
character changed — the state marker — and that the changed character
becomes `x`, the remainder of the line being preserved verbatim. -/
def markerRewriteOnly (input output : List Char) : Bool :=
  (input.length == output.length) &&
  (match (List.range input.length).filter (fun i => input[i]? != output[i]?) with
   | [i] => output[i]? == some 'x'
   | _ => false)

/-- Modelled from the spec's weight table in §4.2 (Duration Accumulator):
the per-symbol weight of one tracking character.  This is the SPEC's
formulation; the code's loop `accumulate` is proved to refine it. -/
def specSymbolWeight (c : Char) : Nat :=
  if c = '.' then 30 else if c = ';' then 15 else if c = ',' then 5 else 0

lemma stepMinutes_eq_add_weight (n : Nat) (c : Char) :
    stepMinutes n c = n + specSymbolWeight c := by
  by_cases h1 : c = '.'
  · subst h1; simp [stepMinutes, specSymbolWeight]
  · by_cases h2 : c = ';'
    · subst h2; simp [stepMinutes, specSymbolWeight]
    · by_cases h3 : c = ','
      · subst h3; simp [stepMinutes, specSymbolWeight]
      · simp [stepMinutes, specSymbolWeight, h1, h2, h3]

lemma foldl_stepMinutes (s : List Char) :
    ∀ n : Nat, s.foldl stepMinutes n = n + (s.map specSymbolWeight).sum := by
  induction s with
  | nil => intro n; simp
  | cons c rest ih =>
    intro n
    simp only [List.foldl_cons, List.map_cons, List.sum_cons]
    rw [ih, stepMinutes_eq_add_weight]
    omega

lemma accumulate_eq_sum (s : List Char) :
    accumulate s = (s.map specSymbolWeight).sum := by
  simpa [accumulate] using foldl_stepMinutes s 0

lemma specSymbolWeight_mod5 (c : Char) : specSymbolWeight c % 5 = 0 := by
  unfold specSymbolWeight
  split_ifs <;> rfl

lemma accumulate_mod5 (s : List Char) : accumulate s % 5 = 0 := by
  rw [accumulate_eq_sum]
  induction s with
  | nil => rfl
  | cons c rest ih =>
    simp only [List.map_cons, List.sum_cons]
    have := specSymbolWeight_mod5 c
    omega

/-- C1: the Duration Accumulator sums per-symbol weights 30 for `.`, 15
for `;`, 5 for `,` and 0 for anything else; the empty string gives 0, the
listed examples evaluate as stated, and the sum is order-independent. -/
theorem C1_accumulate_is_weight_sum :
    (∀ s : List Char, accumulate s = (s.map specSymbolWeight).sum)
    ∧ accumulate "".toList = 0
    ∧ accumulate ".".toList = 30
    ∧ accumulate ";;".toList = 30
    ∧ accumulate ",,,".toList = 15
    ∧ accumulate ". ;,".toList = 50
    ∧ (∀ s t : List Char, s.Perm t → accumulate s = accumulate t) := by
  refine ⟨accumulate_eq_sum, rfl, rfl, rfl, rfl, rfl, fun s t h => ?_⟩
  rw [accumulate_eq_sum, accumulate_eq_sum]
  exact (h.map specSymbolWeight).sum_eq

/-- C1 witness: the order-independence conjunct applied to a transposition
of two concrete tracking strings. -/
theorem C1_accumulate_is_weight_sum_witness :
    accumulate ['.', ';'] = accumulate [';', '.'] :=
  C1_accumulate_is_weight_sum.2.2.2.2.2.2 ['.', ';'] [';', '.']
    (List.Perm.swap ';' '.' [])

/-- C4: a line the pattern rejects is echoed with `?` appended and causes
no tracker call; `vimlog` returns normally (it is a total function), so no
error is raised and the exit code is unchanged. -/
theorem C4_unmatched_line (line : List Char)
    (h : WORKLOG_RX_match line = none) :
    vimlog line = ⟨line ++ "?".toList, []⟩ := by
  simp [vimlog, h]

/-- C4 witness: the end-to-end scenario-3 line. -/
theorem C4_unmatched_line_witness :
    vimlog "not a worklog line at all".toList =
      ⟨"not a worklog line at all".toList ++ "?".toList, []⟩ :=
  C4_unmatched_line "not a worklog line at all".toList rfl

/-- C5: a matching line whose state marker is `x` is echoed with `!`
appended and no submission is issued, whatever the tracking field holds. -/
theorem C5_complete_line (line : List Char) (m : WLMatch)
    (h : WORKLOG_RX_match line = some m) (hx : m.state = 'x') :
    vimlog line = ⟨line ++ "!".toList, []⟩ := by
  simp [vimlog, h, hx]

/-- C5 witness: the end-to-end scenario-2 line, whose tracking field `.`
would otherwise be worth 30 minutes. -/
theorem C5_complete_line_witness :
    vimlog "- [x] done already - PROJ-2 [.]".toList =
      ⟨"- [x] done already - PROJ-2 [.]".toList ++ "!".toList, []⟩ :=
  C5_complete_line "- [x] done already - PROJ-2 [.]".toList
    ⟨'x', [], "done already".toList, none, "PROJ-2".toList, ['.']⟩ rfl rfl

/-- C6: a matching, non-`x` line whose tracking marks accumulate to 0 is
printed back completely unchanged and no submission is issued. -/
theorem C6_zero_minutes (line : List Char) (m : WLMatch)
    (h : WORKLOG_RX_match line = some m) (hx : m.state ≠ 'x')
    (h0 : accumulate m.tracking = 0) :
    vimlog line = ⟨line, []⟩ := by
  simp [vimlog, h, hx, h0]

/-- C6 witness: a pending line with an empty tracking field. -/
theorem C6_zero_minutes_witness :
    vimlog "- [ ] fix bug - PROJ-1 []".toList =
      ⟨"- [ ] fix bug - PROJ-1 []".toList, []⟩ :=
  C6_zero_minutes "- [ ] fix bug - PROJ-1 []".toList
    ⟨' ', [], "fix bug".toList, none, "PROJ-1".toList, []⟩ rfl
    (by decide) rfl

/-- C10: in the submission-success branch the printed line is the literal
`"- [x]"` concatenated with the input from character index 5 on — a purely
positional rewrite, independent of what the first five input characters
were. -/
theorem C10_positional_rewrite (line : List Char) (m : WLMatch)
    (h : WORKLOG_RX_match line = some m) (hx : m.state ≠ 'x')
    (hm : 0 < accumulate m.tracking) :
    (vimlog line).output = "- [x]".toList ++ line.drop 5 := by
  simp [vimlog, h, hx, hm]

/-- C10 witness: a matching line that starts with a tab between `-` and
`[`, so the first five characters are not `- [<state>]`; the rewrite is
still positional. -/
theorem C10_positional_rewrite_witness :
    (vimlog "-\t[ ] fix bug - PROJ-1 [.]".toList).output =
      "- [x]".toList ++ "-\t[ ] fix bug - PROJ-1 [.]".toList.drop 5 :=
  C10_positional_rewrite "-\t[ ] fix bug - PROJ-1 [.]".toList
    ⟨' ', [], "fix bug".toList, none, "PROJ-1".toList, ['.']⟩ rfl
    (by decide) (by decide)

lemma pChar_mem {p : Char → Bool} {s : List Char} {x : Char × List Char}
    (h : x ∈ pChar p s) : p x.1 = true := by
  cases s with
  | nil => simp [pChar] at h
  | cons c rest =>
    by_cases hp : p c
    · simp [pChar, hp] at h
      subst h
      exact hp
    · simp [pChar, hp] at h

lemma mem_WORKLOG_RX_parses_state {s : List Char} {x : WLMatch × List Char}
    (h : x ∈ WORKLOG_RX_parses s) : isStateCh x.1.state = true := by
  simp only [WORKLOG_RX_parses, List.mem_flatMap, List.mem_map] at h
  obtain ⟨a, -, b, -, c, -, st, hst, d, -, e, -, px, -, f, -, cm, -, g, -,
    tm, -, h2, -, i, -, j, -, iss, -, k, -, l, -, m2, -, tr, -, z, -, hz⟩ := h
  rw [← hz]
  exact pChar_mem hst

lemma head?_eq_some_mem {α : Type} {l : List α} {a : α}
    (h : l.head? = some a) : a ∈ l := by
  cases l with
  | nil => simp at h
  | cons x xs =>
    simp at h
    subst h
    exact List.mem_cons_self x xs

lemma WORKLOG_RX_match_state {line : List Char} {m : WLMatch}
    (h : WORKLOG_RX_match line = some m) : isStateCh m.state = true := by
  unfold WORKLOG_RX_match at h
  cases hh : (WORKLOG_RX_parses line).head? with
  | none => rw [hh] at h; simp at h
  | some pair =>
    rw [hh] at h
    simp at h
    have := mem_WORKLOG_RX_parses_state (head?_eq_some_mem hh)
    rw [h] at this
    exact this

/-- C7: the state group of `WORKLOG_RX` is the character class `[\. x]`,
so every successful match has state `.`, ` ` or `x`; a line with any other
character there (or failing the pattern elsewhere) yields `none`, the
all-or-nothing result of `WORKLOG_RX_match` — there is no partial
extraction. -/
theorem C7_state_alphabet (line : List Char) (m : WLMatch)
    (h : WORKLOG_RX_match line = some m) :
    m.state = '.' ∨ m.state = ' ' ∨ m.state = 'x' := by
  have hs := WORKLOG_RX_match_state h
  simp [isStateCh] at hs
  tauto

/-- C7 witness: a concrete line whose state position holds `.`. -/
theorem C7_state_alphabet_witness :
    ('.' : Char) = '.' ∨ ('.' : Char) = ' ' ∨ ('.' : Char) = 'x' :=
  C7_state_alphabet "- [.] * comment - A-1 [.]".toList
    ⟨'.', ['*'], "comment".toList, none, "A-1".toList, ['.']⟩ rfl

/-- C2 counterexample: `"-  [ ] fix bug - PROJ-1 [.]"` (two spaces after
the dash) matches `WORKLOG_RX` with state ` ` and 30 accumulated minutes,
but the printed success line is `"- [x]] fix bug - PROJ-1 [.]"` — the
positional rewrite `'- [x]' + line[5:]` garbles the marker region instead
of changing only the state marker. -/
theorem C2_counterexample :
    WORKLOG_RX_match "-  [ ] fix bug - PROJ-1 [.]".toList =
      some ⟨' ', [], "fix bug".toList, none, "PROJ-1".toList, ['.']⟩
    ∧ (' ' : Char) ≠ 'x'
    ∧ 0 < accumulate ['.']
    ∧ (vimlog "-  [ ] fix bug - PROJ-1 [.]".toList).output =
        "- [x]] fix bug - PROJ-1 [.]".toList
    ∧ markerRewriteOnly "-  [ ] fix bug - PROJ-1 [.]".toList
        (vimlog "-  [ ] fix bug - PROJ-1 [.]".toList).output = false :=
  ⟨rfl, by decide, by decide, rfl, by decide⟩

/-- C2 amended: for a matching, non-`x` line with positive minutes,
exactly one submission is issued with the parsed issue, `"<minutes>m"` and
the parsed comment, and — provided the line's first five characters are
exactly `- [<state>]` — the printed line is the input with only its state
marker changed to `x`, the remainder preserved verbatim (the last conjunct
decomposes the input so that the output differs from it only at the marker
character). -/
theorem C2_amended_submission (line : List Char) (m : WLMatch)
    (h : WORKLOG_RX_match line = some m) (hx : m.state ≠ 'x')
    (hm : 0 < accumulate m.tracking)
    (h5 : line.take 5 = ['-', ' ', '[', m.state, ']']) :
    (vimlog line).calls =
      [⟨m.issue, (toString (accumulate m.tracking)).toList ++ "m".toList, m.comment⟩]
    ∧ (vimlog line).output = ['-', ' ', '[', 'x', ']'] ++ line.drop 5
    ∧ line = ['-', ' ', '[', m.state, ']'] ++ line.drop 5 := by
  refine ⟨?_, ?_, ?_⟩
  · simp [vimlog, h, hx, hm]
  · simp [vimlog, h, hx, hm]
  · conv_lhs => rw [← List.take_append_drop 5 line]
    rw [h5]

/-- C2 witness: the amended theorem applied to the scenario-1 line. -/
theorem C2_amended_submission_witness :
    (vimlog "- [ ] fix bug - PROJ-1 [...]".toList).calls =
      [⟨"PROJ-1".toList,
        (toString (accumulate ['.', '.', '.'])).toList ++ "m".toList,
        "fix bug".toList⟩]
    ∧ (vimlog "- [ ] fix bug - PROJ-1 [...]".toList).output =
        ['-', ' ', '[', 'x', ']'] ++ "- [ ] fix bug - PROJ-1 [...]".toList.drop 5
    ∧ "- [ ] fix bug - PROJ-1 [...]".toList =
        ['-', ' ', '[', ' ', ']'] ++ "- [ ] fix bug - PROJ-1 [...]".toList.drop 5 :=
  C2_amended_submission "- [ ] fix bug - PROJ-1 [...]".toList
    ⟨' ', [], "fix bug".toList, none, "PROJ-1".toList, ['.', '.', '.']⟩
    rfl (by decide) (by decide) rfl

/-- C3 counterexample: for `"- [ ] a  - X-1 [.]"` the backtracking match
captures the comment as `"a "` — WITH a trailing space — and that string
is submitted as the worklog comment, so the extracted comment is not
whitespace-trimmed. -/
theorem C3_counterexample :
    WORKLOG_RX_match "- [ ] a  - X-1 [.]".toList =
      some ⟨' ', [], ['a', ' '], none, "X-1".toList, ['.']⟩
    ∧ (vimlog "- [ ] a  - X-1 [.]".toList).calls =
        [⟨"X-1".toList, "30m".toList, ['a', ' ']⟩]
    ∧ ['a', ' '].getLast? = some ' '
    ∧ isSpaceCh ' ' = true :=
  ⟨rfl, rfl, rfl, rfl⟩

/-- C3 amended: the comment is captured exactly as matched (it can retain
trailing whitespace); the concrete scenario holds exactly as stated: input
`"- [ ] fix bug - PROJ-1 [...]"` submits `(PROJ-1, 90m, "fix bug")` with
the comment free of surrounding whitespace, and prints
`"- [x] fix bug - PROJ-1 [...]"`. -/
theorem C3_amended_scenario :
    vimlog "- [ ] fix bug - PROJ-1 [...]".toList =
      ⟨"- [x] fix bug - PROJ-1 [...]".toList,
       [⟨"PROJ-1".toList, "90m".toList, "fix bug".toList⟩]⟩ :=
  rfl

lemma string_append_ne_empty_right (a b : String) (hb : b.data ≠ []) :
    a ++ b ≠ "" := by
  intro hc
  have hd : (a ++ b).data = ("" : String).data := congrArg String.data hc
  simp [String.data_append] at hd
  exact hb hd.2

/-- C8: on any subcommand, if the resolved server or user is absent, or the
keyring holds no password for the (server, user) pair, the run ends in
`exited` with a nonempty message and exit code 1 ≠ 0; the subcommand body
(and with it any tracker call) is never reached, since `exited` is produced
by `make_jira_client` before `cmd` is applied. -/
theorem C8_missing_config_exits {α : Type} (cfg : CLIConfig)
    (kr : String → String → Option String) (cmd : JiraClient → α)
    (h : cfg.jira_server = none ∨ cfg.jira_user = none ∨
      ∃ s u, cfg.jira_server = some s ∧ cfg.jira_user = some u ∧ kr s u = none) :
    ∃ msg code, run_subcommand cfg kr cmd = ProcOutcome.exited msg code
      ∧ code ≠ 0 ∧ msg ≠ "" := by
  obtain ⟨sv, us⟩ := cfg
  rcases h with h | h | ⟨s, u, hs, hu, hk⟩
  · simp only at h
    subst h
    exact ⟨_, 1, rfl, by decide, by decide⟩
  · simp only at h
    subst h
    cases sv with
    | none => exact ⟨_, 1, rfl, by decide, by decide⟩
    | some s => exact ⟨_, 1, rfl, by decide, by decide⟩
  · simp only at hs hu
    subst hs; subst hu
    refine ⟨"Please add password to keyring (run \"keyring set "
      ++ s ++ " " ++ u ++ "\")", 1, ?_, by decide, ?_⟩
    · simp [run_subcommand, make_jira_client, hk]
    · exact string_append_ne_empty_right _ "\")" (by decide)

/-- C8 witness: a configuration with no server and an empty keyring. -/
theorem C8_missing_config_exits_witness :
    ∃ msg code,
      run_subcommand ⟨none, some "alice"⟩ (fun _ _ => none)
        (fun _ => (0 : Nat)) = ProcOutcome.exited msg code
      ∧ code ≠ 0 ∧ msg ≠ "" :=
  C8_missing_config_exits ⟨none, some "alice"⟩ (fun _ _ => none)
    (fun _ => (0 : Nat)) (Or.inl rfl)

/-- C9: the accumulated minutes are always a multiple of 5 (they are
non-negative by type), and every `timeSpent` string `vimlog` submits is
`"<n>m"` for a positive `n` divisible by 5. -/
theorem C9_timeSpent_multiple_of_five :
    (∀ s : List Char, accumulate s % 5 = 0)
    ∧ ∀ line : List Char, ∀ e ∈ (vimlog line).calls,
        ∃ n : Nat, 0 < n ∧ n % 5 = 0
          ∧ e.timeSpent = (toString n).toList ++ "m".toList := by
  refine ⟨accumulate_mod5, fun line e he => ?_⟩
  unfold vimlog at he
  cases hm : WORKLOG_RX_match line with
  | none => rw [hm] at he; simp at he
  | some m =>
    rw [hm] at he
    by_cases hx : m.state = 'x'
    · simp [hx] at he
    · by_cases hpos : 0 < accumulate m.tracking
      · simp [hx, hpos] at he
        exact ⟨accumulate m.tracking, hpos, accumulate_mod5 _, by subst he; rfl⟩
      · simp [hx, hpos] at he

/-- C9 witness: the single call issued for the scenario-1 line carries
`timeSpent = "90m"` with 90 a positive multiple of 5. -/
theorem C9_timeSpent_multiple_of_five_witness :
    ∃ n : Nat, 0 < n ∧ n % 5 = 0
      ∧ (⟨"PROJ-1".toList, "90m".toList, "fix bug".toList⟩ : WorklogCall).timeSpent
          = (toString n).toList ++ "m".toList :=
  C9_timeSpent_multiple_of_five.2 "- [ ] fix bug - PROJ-1 [...]".toList
    ⟨"PROJ-1".toList, "90m".toList, "fix bug".toList⟩ (by decide)
